import Mathlib

/-!
Verification of the burnout scoring core of the Goal-Sync application
(`src/utils/burnout.ts`).  The three functions `calculateBurnoutScore`,
`getBurnoutLevel` and `getAdaptiveGoalSuggestion` are pure arithmetic over
JavaScript numbers; we embed them over `ℚ`, with JavaScript's `Math.round`
modelled as `fun x => ⌊x + 1/2⌋` (round half toward +∞).
-/

namespace GoalSync

/-- The `BurnoutMetrics` interface: four numeric wellness inputs. -/
structure BurnoutMetrics where
  stress_level : ℚ
  sleep_hours : ℚ
  mood_level : ℚ
  time_spent_hours : ℚ

/-- JavaScript `Math.round`: rounds to the nearest integer, half toward +∞. -/
def jsRound (x : ℚ) : ℤ := ⌊x + 1/2⌋

/-- `((stress_level - 1) / 4) * 4` — the stress contribution, 0–4 range. -/
def stressScore (stress_level : ℚ) : ℚ := ((stress_level - 1) / 4) * 4

/-- The sleep contribution: `3 - (sleep_hours / 6) * 3` below 6 hours,
`min 2 ((sleep_hours - 9) * 0.5)` above 9 hours, otherwise 0. -/
def sleepScore (sleep_hours : ℚ) : ℚ :=
  if sleep_hours < 6 then 3 - (sleep_hours / 6) * 3
  else if sleep_hours > 9 then min 2 ((sleep_hours - 9) * 0.5)
  else 0

/-- `((5 - mood_level) / 4) * 3` — the mood contribution, 0–3 range. -/
def moodScore (mood_level : ℚ) : ℚ := ((5 - mood_level) / 4) * 3

/-- The overwork contribution: `min 3 ((time_spent_hours - 8) * 0.3)` above
8 hours, otherwise 0. -/
def timeScore (time_spent_hours : ℚ) : ℚ :=
  if time_spent_hours > 8 then min 3 ((time_spent_hours - 8) * 0.3)
  else 0

/-- `totalScore = stressScore + sleepScore + moodScore + timeScore`. -/
def totalScore (m : BurnoutMetrics) : ℚ :=
  stressScore m.stress_level + sleepScore m.sleep_hours +
    moodScore m.mood_level + timeScore m.time_spent_hours

/-- `Math.min(10, Math.max(0, totalScore))` — the total clamped to [0, 10]. -/
def clampedScore (m : BurnoutMetrics) : ℚ :=
  min 10 (max 0 (totalScore m))

/-- `calculateBurnoutScore`: the clamped total, rounded to one decimal place
via `Math.round(… * 10) / 10`. -/
def calculateBurnoutScore (m : BurnoutMetrics) : ℚ :=
  (jsRound (clampedScore m * 10) : ℚ) / 10

/-- The three qualitative burnout levels. -/
inductive BurnoutLevel
  | low
  | moderate
  | high
deriving DecidableEq, Repr

/-- The record returned by `getBurnoutLevel`. -/
structure BurnoutLevelInfo where
  level : BurnoutLevel
  color : String
  bgColor : String
  message : String
deriving DecidableEq, Repr

/-- `getBurnoutLevel`: `score ≤ 3` is low, `score ≤ 6` is moderate,
otherwise high, each with fixed colors and message. -/
def getBurnoutLevel (score : ℚ) : BurnoutLevelInfo :=
  if score ≤ 3 then
    { level := BurnoutLevel.low
      color := "text-green-700"
      bgColor := "bg-green-100"
      message := "You\x27re doing great! Keep up the healthy habits." }
  else if score ≤ 6 then
    { level := BurnoutLevel.moderate
      color := "text-yellow-700"
      bgColor := "bg-yellow-100"
      message := "Consider taking some time to recharge and relax." }
  else
    { level := BurnoutLevel.high
      color := "text-red-700"
      bgColor := "bg-red-100"
      message := "High burnout detected. Please prioritize rest and self-care." }

/-- `getAdaptiveGoalSuggestion`: a recommendation string bucketed at
scores 7 and 4. -/
def getAdaptiveGoalSuggestion (burnoutScore : ℚ) : String :=
  if burnoutScore ≥ 7 then
    "Consider reducing your weekly goals by 30-50% to focus on recovery."
  else if burnoutScore ≥ 4 then
    "You might want to maintain current goals but add more rest periods."
  else
    "Your burnout levels look healthy - you can maintain or slightly increase your goals."

/-- The full record returned by `getBurnoutLevel` on the low branch. -/
def lowInfo : BurnoutLevelInfo :=
  { level := BurnoutLevel.low
    color := "text-green-700"
    bgColor := "bg-green-100"
    message := "You\x27re doing great! Keep up the healthy habits." }

/-- The full record returned by `getBurnoutLevel` on the moderate branch. -/
def moderateInfo : BurnoutLevelInfo :=
  { level := BurnoutLevel.moderate
    color := "text-yellow-700"
    bgColor := "bg-yellow-100"
    message := "Consider taking some time to recharge and relax." }

/-- The full record returned by `getBurnoutLevel` on the high branch. -/
def highInfo : BurnoutLevelInfo :=
  { level := BurnoutLevel.high
    color := "text-red-700"
    bgColor := "bg-red-100"
    message := "High burnout detected. Please prioritize rest and self-care." }

/-- Modelled from the spec: the six-step algorithm of §4.1 written exactly as
the spec states it — `stressTerm = (stressLevel - 1) / 4 * 4`; piecewise
`sleepTerm`; `moodTerm = (5 - moodLevel) / 4 * 3`; piecewise `timeTerm`;
`raw` their sum; `value = round(clamp(raw, 0, 10) * 10) / 10`. -/
def specBurnoutScore (m : BurnoutMetrics) : ℚ :=
  let stressTerm := (m.stress_level - 1) / 4 * 4
  let sleepTerm :=
    if m.sleep_hours < 6 then 3 - (m.sleep_hours / 6) * 3
    else if m.sleep_hours > 9 then min 2 ((m.sleep_hours - 9) * 0.5)
    else 0
  let moodTerm := (5 - m.mood_level) / 4 * 3
  let timeTerm :=
    if m.time_spent_hours > 8 then min 3 ((m.time_spent_hours - 8) * 0.3)
    else 0
  let raw := stressTerm + sleepTerm + moodTerm + timeTerm
  (jsRound (min 10 (max 0 raw) * 10) : ℚ) / 10

lemma getBurnoutLevel_low_of (v : ℚ) (h : v ≤ 3) : getBurnoutLevel v = lowInfo := by
  unfold getBurnoutLevel lowInfo
  rw [if_pos h]

lemma getBurnoutLevel_moderate_of (v : ℚ) (h1 : 3 < v) (h2 : v ≤ 6) :
    getBurnoutLevel v = moderateInfo := by
  unfold getBurnoutLevel moderateInfo
  rw [if_neg (not_le.mpr h1), if_pos h2]

lemma getBurnoutLevel_high_of (v : ℚ) (h : 6 < v) : getBurnoutLevel v = highInfo := by
  unfold getBurnoutLevel highInfo
  rw [if_neg (by linarith : ¬ v ≤ 3), if_neg (not_le.mpr h)]

lemma suggestion_reduce_of (v : ℚ) (h : 7 ≤ v) :
    getAdaptiveGoalSuggestion v =
      "Consider reducing your weekly goals by 30-50% to focus on recovery." := by
  unfold getAdaptiveGoalSuggestion
  rw [if_pos h]

lemma suggestion_maintain_of (v : ℚ) (h1 : 4 ≤ v) (h2 : v < 7) :
    getAdaptiveGoalSuggestion v =
      "You might want to maintain current goals but add more rest periods." := by
  unfold getAdaptiveGoalSuggestion
  rw [if_neg (not_le.mpr h2), if_pos h1]

lemma suggestion_healthy_of (v : ℚ) (h : v < 4) :
    getAdaptiveGoalSuggestion v =
      "Your burnout levels look healthy - you can maintain or slightly increase your goals." := by
  unfold getAdaptiveGoalSuggestion
  rw [if_neg (by linarith : ¬ 7 ≤ v), if_neg (not_le.mpr h)]

/-- C1: for every `BurnoutMetrics` input, `calculateBurnoutScore` returns exactly
the value prescribed by the spec's six-step algorithm (stressTerm, piecewise
sleepTerm, moodTerm, piecewise timeTerm, their sum `raw`, then
`round(clamp(raw, 0, 10) * 10) / 10`). -/
theorem calculateBurnoutScore_refines_spec (m : BurnoutMetrics) :
    calculateBurnoutScore m = specBurnoutScore m := rfl

/-- C2: `getBurnoutLevel` returns level low with the doing-great message iff
`v ≤ 3`, level moderate with the recharge message iff `3 < v ≤ 6`, and level
high with the high-burnout message iff `v > 6`; in particular the level at 3 is
low, at 3.1 moderate, at 6 moderate, and at 6.1 high. -/
theorem getBurnoutLevel_threshold_spec (v : ℚ) :
    (((getBurnoutLevel v).level = BurnoutLevel.low ∧
      (getBurnoutLevel v).message =
        "You\x27re doing great! Keep up the healthy habits.") ↔ v ≤ 3) ∧
    (((getBurnoutLevel v).level = BurnoutLevel.moderate ∧
      (getBurnoutLevel v).message =
        "Consider taking some time to recharge and relax.") ↔ 3 < v ∧ v ≤ 6) ∧
    (((getBurnoutLevel v).level = BurnoutLevel.high ∧
      (getBurnoutLevel v).message =
        "High burnout detected. Please prioritize rest and self-care.") ↔ 6 < v) ∧
    (getBurnoutLevel 3).level = BurnoutLevel.low ∧
    (getBurnoutLevel (3.1)).level = BurnoutLevel.moderate ∧
    (getBurnoutLevel 6).level = BurnoutLevel.moderate ∧
    (getBurnoutLevel (6.1)).level = BurnoutLevel.high := by
  refine ⟨?_, ?_, ?_, ?_, ?_, ?_, ?_⟩
  · constructor
    · intro hv
      by_contra hc
      push_neg at hc
      rcases le_or_lt v 6 with h6 | h6
      · rw [getBurnoutLevel_moderate_of v hc h6] at hv
        simp [moderateInfo] at hv
      · rw [getBurnoutLevel_high_of v h6] at hv
        simp [highInfo] at hv
    · intro hv
      rw [getBurnoutLevel_low_of v hv]
      exact ⟨rfl, rfl⟩
  · constructor
    · intro hv
      rcases le_or_lt v 3 with h3 | h3
      · rw [getBurnoutLevel_low_of v h3] at hv
        simp [lowInfo] at hv
      rcases le_or_lt v 6 with h6 | h6
      · exact ⟨h3, h6⟩
      · rw [getBurnoutLevel_high_of v h6] at hv
        simp [highInfo] at hv
    · intro hv
      rw [getBurnoutLevel_moderate_of v hv.1 hv.2]
      exact ⟨rfl, rfl⟩
  · constructor
    · intro hv
      by_contra hc
      push_neg at hc
      rcases le_or_lt v 3 with h3 | h3
      · rw [getBurnoutLevel_low_of v h3] at hv
        simp [lowInfo] at hv
      · rw [getBurnoutLevel_moderate_of v h3 hc] at hv
        simp [moderateInfo] at hv
    · intro hv
      rw [getBurnoutLevel_high_of v hv]
      exact ⟨rfl, rfl⟩
  · rw [getBurnoutLevel_low_of 3 (by norm_num)]; rfl
  · rw [getBurnoutLevel_moderate_of (3.1) (by norm_num) (by norm_num)]; rfl
  · rw [getBurnoutLevel_moderate_of 6 (by norm_num) (by norm_num)]; rfl
  · rw [getBurnoutLevel_high_of (6.1) (by norm_num)]; rfl

/-- C3: `getAdaptiveGoalSuggestion` returns the reduce-goals message iff
`v ≥ 7`, the maintain-with-rest message iff `4 ≤ v < 7`, and the healthy
message iff `v < 4`; the suggestion changes across 7 (6.9 vs 7) and across 4
(3.9 vs 4), while at the classify thresholds 3 and 6 the suggestion does not
change even though the classify level does — the 4/7 thresholds are distinct
from the 3/6 thresholds. -/
theorem getAdaptiveGoalSuggestion_threshold_spec (v : ℚ) :
    (getAdaptiveGoalSuggestion v =
        "Consider reducing your weekly goals by 30-50% to focus on recovery." ↔ 7 ≤ v) ∧
    (getAdaptiveGoalSuggestion v =
        "You might want to maintain current goals but add more rest periods." ↔
      4 ≤ v ∧ v < 7) ∧
    (getAdaptiveGoalSuggestion v =
        "Your burnout levels look healthy - you can maintain or slightly increase your goals." ↔
      v < 4) ∧
    getAdaptiveGoalSuggestion (6.9) ≠ getAdaptiveGoalSuggestion 7 ∧
    getAdaptiveGoalSuggestion (3.9) ≠ getAdaptiveGoalSuggestion 4 ∧
    getAdaptiveGoalSuggestion (3.1) = getAdaptiveGoalSuggestion 3 ∧
    (getBurnoutLevel (3.1)).level ≠ (getBurnoutLevel 3).level ∧
    getAdaptiveGoalSuggestion (6.1) = getAdaptiveGoalSuggestion 6 ∧
    (getBurnoutLevel (6.1)).level ≠ (getBurnoutLevel 6).level := by
  refine ⟨?_, ?_, ?_, ?_, ?_, ?_, ?_, ?_, ?_⟩
  · constructor
    · intro hv
      by_contra hc
      push_neg at hc
      rcases le_or_lt 4 v with h4 | h4
      · rw [suggestion_maintain_of v h4 hc] at hv
        exact absurd hv (by decide)
      · rw [suggestion_healthy_of v (by linarith)] at hv
        exact absurd hv (by decide)
    · exact suggestion_reduce_of v
  · constructor
    · intro hv
      rcases le_or_lt 7 v with h7 | h7
      · rw [suggestion_reduce_of v h7] at hv
        exact absurd hv (by decide)
      rcases le_or_lt 4 v with h4 | h4
      · exact ⟨h4, h7⟩
      · rw [suggestion_healthy_of v h4] at hv
        exact absurd hv (by decide)
    · intro hv
      exact suggestion_maintain_of v hv.1 hv.2
  · constructor
    · intro hv
      by_contra hc
      push_neg at hc
      rcases le_or_lt 7 v with h7 | h7
      · rw [suggestion_reduce_of v h7] at hv
        exact absurd hv (by decide)
      · rw [suggestion_maintain_of v hc h7] at hv
        exact absurd hv (by decide)
    · exact suggestion_healthy_of v
  · rw [suggestion_maintain_of (6.9) (by norm_num) (by norm_num),
      suggestion_reduce_of 7 (by norm_num)]
    decide
  · rw [suggestion_healthy_of (3.9) (by norm_num),
      suggestion_maintain_of 4 (by norm_num) (by norm_num)]
    decide
  · rw [suggestion_healthy_of (3.1) (by norm_num), suggestion_healthy_of 3 (by norm_num)]
  · rw [getBurnoutLevel_moderate_of (3.1) (by norm_num) (by norm_num),
      getBurnoutLevel_low_of 3 (by norm_num)]
    decide
  · rw [suggestion_maintain_of (6.1) (by norm_num) (by norm_num),
      suggestion_maintain_of 6 (by norm_num) (by norm_num)]
  · rw [getBurnoutLevel_high_of (6.1) (by norm_num),
      getBurnoutLevel_moderate_of 6 (by norm_num) (by norm_num)]
    decide

/-- C6 counterexample: the classify bands are NOT inclusive on the lower
bound — the boundary score 3 is classified low, not moderate, and the
boundary score 6 is classified moderate, not high. -/
theorem classify_lower_inclusive_counterexample :
    (getBurnoutLevel 3).level ≠ BurnoutLevel.moderate ∧
    (getBurnoutLevel 6).level ≠ BurnoutLevel.high := by
  rw [getBurnoutLevel_low_of 3 (by norm_num),
    getBurnoutLevel_moderate_of 6 (by norm_num) (by norm_num)]
  exact ⟨by decide, by decide⟩

/-- C6 amended: the classify bands are inclusive on the upper bound — each
band's upper boundary score belongs to that band, so 3 falls in the low band,
6 falls in the moderate band, and scores just above each boundary fall in the
next band. -/
theorem classify_upper_inclusive :
    (getBurnoutLevel 3).level = BurnoutLevel.low ∧
    (getBurnoutLevel (3.1)).level = BurnoutLevel.moderate ∧
    (getBurnoutLevel 6).level = BurnoutLevel.moderate ∧
    (getBurnoutLevel (6.1)).level = BurnoutLevel.high := by
  rw [getBurnoutLevel_low_of 3 (by norm_num),
    getBurnoutLevel_moderate_of (3.1) (by norm_num) (by norm_num),
    getBurnoutLevel_moderate_of 6 (by norm_num) (by norm_num),
    getBurnoutLevel_high_of (6.1) (by norm_num)]
  exact ⟨rfl, rfl, rfl, rfl⟩

/-- C7: on the input with stress 5, sleep 4, mood 1 and 16 hours spent, the
terms are 4, 1, 3 and 2.4, the raw sum 10.4 is clamped to 10, the returned
score is exactly 10, its level is high, and its suggestion is the
reduce-goals message. -/
theorem end_to_end_high_example :
    stressScore 5 = 4 ∧ sleepScore 4 = 1 ∧ moodScore 1 = 3 ∧
    timeScore 16 = 2.4 ∧ totalScore ⟨5, 4, 1, 16⟩ = 10.4 ∧
    clampedScore ⟨5, 4, 1, 16⟩ = 10 ∧
    calculateBurnoutScore ⟨5, 4, 1, 16⟩ = 10 ∧
    (getBurnoutLevel (calculateBurnoutScore ⟨5, 4, 1, 16⟩)).level = BurnoutLevel.high ∧
    getAdaptiveGoalSuggestion (calculateBurnoutScore ⟨5, 4, 1, 16⟩) =
      "Consider reducing your weekly goals by 30-50% to focus on recovery." := by
  have hscore : calculateBurnoutScore ⟨5, 4, 1, 16⟩ = 10 := by
    norm_num [calculateBurnoutScore, clampedScore, totalScore, stressScore,
      sleepScore, moodScore, timeScore, jsRound]
  refine ⟨by norm_num [stressScore], by norm_num [sleepScore], by norm_num [moodScore],
    by norm_num [timeScore],
    by norm_num [totalScore, stressScore, sleepScore, moodScore, timeScore],
    by norm_num [clampedScore, totalScore, stressScore, sleepScore, moodScore, timeScore],
    hscore, ?_, ?_⟩
  · rw [hscore, getBurnoutLevel_high_of 10 (by norm_num)]
    rfl
  · rw [hscore]
    exact suggestion_reduce_of 10 (by norm_num)

/-- C9: `getBurnoutLevel` is total over all rational scores: every score,
including out-of-domain ones, yields exactly one of the three fixed records;
scores ≤ 3 (negative ones included) yield the low record, scores > 6 (those
above 10 included) yield the high record. -/
theorem getBurnoutLevel_total (v : ℚ) :
    (getBurnoutLevel v = lowInfo ∨ getBurnoutLevel v = moderateInfo ∨
      getBurnoutLevel v = highInfo) ∧
    ((getBurnoutLevel v).level = BurnoutLevel.low ↔ v ≤ 3) ∧
    ((getBurnoutLevel v).level = BurnoutLevel.high ↔ 6 < v) ∧
    (getBurnoutLevel (-5)).level = BurnoutLevel.low ∧
    (getBurnoutLevel 11).level = BurnoutLevel.high := by
  refine ⟨?_, ⟨?_, ?_⟩, ⟨?_, ?_⟩, ?_, ?_⟩
  · rcases le_or_lt v 3 with h3 | h3
    · exact Or.inl (getBurnoutLevel_low_of v h3)
    rcases le_or_lt v 6 with h6 | h6
    · exact Or.inr (Or.inl (getBurnoutLevel_moderate_of v h3 h6))
    · exact Or.inr (Or.inr (getBurnoutLevel_high_of v h6))
  · intro hv
    by_contra hc
    push_neg at hc
    rcases le_or_lt v 6 with h6 | h6
    · rw [getBurnoutLevel_moderate_of v hc h6] at hv
      simp [moderateInfo] at hv
    · rw [getBurnoutLevel_high_of v h6] at hv
      simp [highInfo] at hv
  · intro hv
    rw [getBurnoutLevel_low_of v hv]
    rfl
  · intro hv
    by_contra hc
    push_neg at hc
    rcases le_or_lt v 3 with h3 | h3
    · rw [getBurnoutLevel_low_of v h3] at hv
      simp [lowInfo] at hv
    · rw [getBurnoutLevel_moderate_of v h3 hc] at hv
      simp [moderateInfo] at hv
  · intro hv
    rw [getBurnoutLevel_high_of v hv]
    rfl
  · rw [getBurnoutLevel_low_of (-5) (by norm_num)]
    rfl
  · rw [getBurnoutLevel_high_of 11 (by norm_num)]
    rfl

lemma clampedScore_nonneg (m : BurnoutMetrics) : 0 ≤ clampedScore m :=
  le_min (by norm_num) (le_max_left 0 _)

lemma clampedScore_le_ten (m : BurnoutMetrics) : clampedScore m ≤ 10 :=
  min_le_left 10 _

lemma jsRound_nonneg {x : ℚ} (h : 0 ≤ x) : 0 ≤ jsRound x :=
  Int.le_floor.mpr (by push_cast; linarith)

lemma jsRound_le_hundred {x : ℚ} (h : x ≤ 100) : jsRound x ≤ 100 := by
  have : jsRound x < 101 := Int.floor_lt.mpr (by push_cast; linarith)
  omega

lemma score_bounds (m : BurnoutMetrics) :
    0 ≤ calculateBurnoutScore m ∧ calculateBurnoutScore m ≤ 10 ∧
      ∃ k : ℤ, 10 * calculateBurnoutScore m = (k : ℚ) := by
  have h0 : (0 : ℚ) ≤ clampedScore m * 10 := by
    have := clampedScore_nonneg m
    linarith
  have h100 : clampedScore m * 10 ≤ 100 := by
    have := clampedScore_le_ten m
    linarith
  have hr0 : 0 ≤ jsRound (clampedScore m * 10) := jsRound_nonneg h0
  have hr100 : jsRound (clampedScore m * 10) ≤ 100 := jsRound_le_hundred h100
  unfold calculateBurnoutScore
  refine ⟨by positivity, ?_, ⟨jsRound (clampedScore m * 10), by ring⟩⟩
  rw [div_le_iff₀ (by norm_num : (0:ℚ) < 10)]
  exact_mod_cast hr100

/-- C4: for all valid metrics (integer stress and mood levels in [1,5], sleep
and time-spent hours in [0,24]), `calculateBurnoutScore` returns a value `v`
with `0 ≤ v ≤ 10` such that `10 * v` is an integer — one decimal place of
precision. -/
theorem calculateBurnoutScore_valid_range (m : BurnoutMetrics)
    (hs1 : 1 ≤ m.stress_level) (hs2 : m.stress_level ≤ 5)
    (hsi : ∃ k : ℤ, m.stress_level = (k : ℚ))
    (hm1 : 1 ≤ m.mood_level) (hm2 : m.mood_level ≤ 5)
    (hmi : ∃ k : ℤ, m.mood_level = (k : ℚ))
    (hh1 : 0 ≤ m.sleep_hours) (hh2 : m.sleep_hours ≤ 24)
    (ht1 : 0 ≤ m.time_spent_hours) (ht2 : m.time_spent_hours ≤ 24) :
    0 ≤ calculateBurnoutScore m ∧ calculateBurnoutScore m ≤ 10 ∧
      ∃ k : ℤ, 10 * calculateBurnoutScore m = (k : ℚ) :=
  score_bounds m

/-- C4 witness: the valid input with stress 3, sleep 8, mood 3 and 8 hours
spent satisfies the domain hypotheses, and its score lies in [0,10] with one
decimal place. -/
theorem calculateBurnoutScore_valid_range_witness :
    (1 : ℚ) ≤ 3 ∧ (3 : ℚ) ≤ 5 ∧ (0 : ℚ) ≤ 8 ∧ (8 : ℚ) ≤ 24 ∧
    (0 ≤ calculateBurnoutScore ⟨3, 8, 3, 8⟩ ∧ calculateBurnoutScore ⟨3, 8, 3, 8⟩ ≤ 10 ∧
      ∃ k : ℤ, 10 * calculateBurnoutScore ⟨3, 8, 3, 8⟩ = (k : ℚ)) :=
  ⟨by norm_num, by norm_num, by norm_num, by norm_num,
    calculateBurnoutScore_valid_range ⟨3, 8, 3, 8⟩ (by norm_num) (by norm_num)
      ⟨3, by norm_num⟩ (by norm_num) (by norm_num) ⟨3, by norm_num⟩
      (by norm_num) (by norm_num) (by norm_num) (by norm_num)⟩

/-- C8: for every numeric input whatsoever, in-domain or not,
`calculateBurnoutScore` returns a value in [0,10] with one decimal place,
because the clamp and the rounding are applied unconditionally. -/
theorem calculateBurnoutScore_unconditional_range (m : BurnoutMetrics) :
    0 ≤ calculateBurnoutScore m ∧ calculateBurnoutScore m ≤ 10 ∧
      ∃ k : ℤ, 10 * calculateBurnoutScore m = (k : ℚ) :=
  score_bounds m

/-- C10: the one-decimal rounding is round-half-up — whenever the clamped term
sum lies exactly halfway between two consecutive multiples of 0.1 (that is,
ten times the clamped sum is `k + 1/2` for an integer `k`), the returned value
is the larger multiple `(k + 1) / 10`. -/
theorem calculateBurnoutScore_round_half_up (m : BurnoutMetrics) (k : ℤ)
    (h : clampedScore m * 10 = (k : ℚ) + 1/2) :
    calculateBurnoutScore m = ((k : ℚ) + 1) / 10 := by
  unfold calculateBurnoutScore jsRound
  rw [h]
  have : ((k : ℚ) + 1/2) + 1/2 = ((k + 1 : ℤ) : ℚ) := by push_cast; ring
  rw [this, Int.floor_intCast]
  push_cast
  ring

/-- C10 witness: stress 4, sleep 5.1, mood 5, time 0 gives the clamped sum
3.45 — exactly halfway between 3.4 and 3.5 — and the function returns 3.5,
the larger multiple. -/
theorem calculateBurnoutScore_round_half_up_witness :
    clampedScore ⟨4, 5.1, 5, 0⟩ * 10 = ((34 : ℤ) : ℚ) + 1/2 ∧
    calculateBurnoutScore ⟨4, 5.1, 5, 0⟩ = (((34 : ℤ) : ℚ) + 1) / 10 := by
  have hc : clampedScore ⟨4, 5.1, 5, 0⟩ * 10 = ((34 : ℤ) : ℚ) + 1/2 := by
    norm_num [clampedScore, totalScore, stressScore, sleepScore, moodScore, timeScore]
  exact ⟨hc, calculateBurnoutScore_round_half_up ⟨4, 5.1, 5, 0⟩ 34 hc⟩

lemma score_mono {m1 m2 : BurnoutMetrics} (h : totalScore m1 ≤ totalScore m2) :
    calculateBurnoutScore m1 ≤ calculateBurnoutScore m2 := by
  have hc : clampedScore m1 ≤ clampedScore m2 :=
    min_le_min le_rfl (max_le_max le_rfl h)
  have hf : jsRound (clampedScore m1 * 10) ≤ jsRound (clampedScore m2 * 10) :=
    Int.floor_le_floor (by linarith)
  unfold calculateBurnoutScore
  have : ((jsRound (clampedScore m1 * 10) : ℚ)) ≤ (jsRound (clampedScore m2 * 10) : ℚ) := by
    exact_mod_cast hf
  linarith

lemma stressScore_mono {a b : ℚ} (h : a ≤ b) : stressScore a ≤ stressScore b := by
  unfold stressScore
  linarith

lemma moodScore_anti {a b : ℚ} (h : a ≤ b) : moodScore b ≤ moodScore a := by
  unfold moodScore
  linarith

lemma sleepScore_anti_below {a b : ℚ} (h : a ≤ b) (h6 : b ≤ 6) :
    sleepScore b ≤ sleepScore a := by
  unfold sleepScore
  split_ifs <;> linarith

lemma sleepScore_mono_above {a b : ℚ} (h9 : 9 ≤ a) (h : a ≤ b) :
    sleepScore a ≤ sleepScore b := by
  unfold sleepScore
  split_ifs <;>
    first
      | linarith
      | exact min_le_min le_rfl (by linarith)
      | exact le_min (by norm_num) (by linarith)

lemma timeScore_mono {a b : ℚ} (h : a ≤ b) : timeScore a ≤ timeScore b := by
  unfold timeScore
  split_ifs <;>
    first
      | linarith
      | exact min_le_min le_rfl (by linarith)
      | exact le_min (by norm_num) (by linarith)

/-- C5: `calculateBurnoutScore` is monotone in each input separately over the
valid domain, the other three inputs held fixed: a higher stress level never
decreases the score; a higher mood level never increases it; moving the sleep
hours further outside [6,9] — lower below 6, or higher above 9 — never
decreases it; and more time spent above 8 hours never decreases it. -/
theorem calculateBurnoutScore_monotone :
    (∀ (m : BurnoutMetrics) (a b : ℚ), 1 ≤ a → a ≤ b → b ≤ 5 →
      calculateBurnoutScore { m with stress_level := a } ≤
        calculateBurnoutScore { m with stress_level := b }) ∧
    (∀ (m : BurnoutMetrics) (a b : ℚ), 1 ≤ a → a ≤ b → b ≤ 5 →
      calculateBurnoutScore { m with mood_level := b } ≤
        calculateBurnoutScore { m with mood_level := a }) ∧
    (∀ (m : BurnoutMetrics) (a b : ℚ), 0 ≤ a → a ≤ b → b ≤ 6 →
      calculateBurnoutScore { m with sleep_hours := b } ≤
        calculateBurnoutScore { m with sleep_hours := a }) ∧
    (∀ (m : BurnoutMetrics) (a b : ℚ), 9 ≤ a → a ≤ b → b ≤ 24 →
      calculateBurnoutScore { m with sleep_hours := a } ≤
        calculateBurnoutScore { m with sleep_hours := b }) ∧
    (∀ (m : BurnoutMetrics) (a b : ℚ), 8 ≤ a → a ≤ b → b ≤ 24 →
      calculateBurnoutScore { m with time_spent_hours := a } ≤
        calculateBurnoutScore { m with time_spent_hours := b }) := by
  refine ⟨?_, ?_, ?_, ?_, ?_⟩
  · intro m a b _ hab _
    apply score_mono
    unfold totalScore
    have := stressScore_mono hab
    simp only
    linarith
  · intro m a b _ hab _
    apply score_mono
    unfold totalScore
    have := moodScore_anti hab
    simp only
    linarith
  · intro m a b _ hab h6
    apply score_mono
    unfold totalScore
    have := sleepScore_anti_below hab h6
    simp only
    linarith
  · intro m a b h9 hab _
    apply score_mono
    unfold totalScore
    have := sleepScore_mono_above h9 hab
    simp only
    linarith
  · intro m a b _ hab _
    apply score_mono
    unfold totalScore
    have := timeScore_mono hab
    simp only
    linarith

/-- C5 witness: concrete instances of each monotonicity conjunct — raising
stress 2→4, mood 2→4, lowering sleep 5→2, raising sleep 10→12, and raising
time 10→14, each from the baseline metrics ⟨3, 7, 3, 4⟩. -/
theorem calculateBurnoutScore_monotone_witness :
    ((1:ℚ) ≤ 2 ∧ (2:ℚ) ≤ 4 ∧ (4:ℚ) ≤ 5) ∧
    ((0:ℚ) ≤ 2 ∧ (2:ℚ) ≤ 5 ∧ (5:ℚ) ≤ 6) ∧
    ((9:ℚ) ≤ 10 ∧ (10:ℚ) ≤ 12 ∧ (12:ℚ) ≤ 24) ∧
    ((8:ℚ) ≤ 10 ∧ (10:ℚ) ≤ 14 ∧ (14:ℚ) ≤ 24) ∧
    calculateBurnoutScore ⟨2, 7, 3, 4⟩ ≤ calculateBurnoutScore ⟨4, 7, 3, 4⟩ ∧
    calculateBurnoutScore ⟨3, 7, 4, 4⟩ ≤ calculateBurnoutScore ⟨3, 7, 2, 4⟩ ∧
    calculateBurnoutScore ⟨3, 5, 3, 4⟩ ≤ calculateBurnoutScore ⟨3, 2, 3, 4⟩ ∧
    calculateBurnoutScore ⟨3, 10, 3, 4⟩ ≤ calculateBurnoutScore ⟨3, 12, 3, 4⟩ ∧
    calculateBurnoutScore ⟨3, 7, 3, 10⟩ ≤ calculateBurnoutScore ⟨3, 7, 3, 14⟩ :=
  ⟨⟨by norm_num, by norm_num, by norm_num⟩,
   ⟨by norm_num, by norm_num, by norm_num⟩,
   ⟨by norm_num, by norm_num, by norm_num⟩,
   ⟨by norm_num, by norm_num, by norm_num⟩,
   calculateBurnoutScore_monotone.1 ⟨3, 7, 3, 4⟩ 2 4
     (by norm_num) (by norm_num) (by norm_num),
   calculateBurnoutScore_monotone.2.1 ⟨3, 7, 3, 4⟩ 2 4
     (by norm_num) (by norm_num) (by norm_num),
   calculateBurnoutScore_monotone.2.2.1 ⟨3, 7, 3, 4⟩ 2 5
     (by norm_num) (by norm_num) (by norm_num),
   calculateBurnoutScore_monotone.2.2.2.1 ⟨3, 7, 3, 4⟩ 10 12
     (by norm_num) (by norm_num) (by norm_num),
   calculateBurnoutScore_monotone.2.2.2.2 ⟨3, 7, 3, 4⟩ 10 14
     (by norm_num) (by norm_num) (by norm_num)⟩

end GoalSync
